import Mathlib

/-!
Shallow embedding of the 3d-printer-price-calculator repository
(src/3DPrintPrice.py and src/app.py).

Numeric values are modelled as exact rationals (ℚ); Python `%` on a
positive divisor, `int()` truncation toward zero, and `round(x, 2)`
(half-even rounding on the scaled value) are modelled explicitly below.
Profile records and the persisted JSON document are modelled as
structures; a JSON key that may be absent is an `Option` field, and
`dict.get(key, default)` becomes `Option.getD`.
-/

/-- Python `a % b` for rationals: `a - b * floor (a / b)`.
For a positive divisor the result always lies in `[0, b)`. -/
def pyMod (a b : ℚ) : ℚ := a - b * ⌊a / b⌋

/-- Python `int()` on a rational: truncation toward zero. -/
def pyInt (q : ℚ) : ℤ := if 0 ≤ q then ⌊q⌋ else ⌈q⌉

/-- Round-half-even on a rational, as the Python builtin `round` resolves
a value to the nearest integer. -/
def roundHalfEven (q : ℚ) : ℤ :=
  if Int.fract q < 1 / 2 then ⌊q⌋
  else if 1 / 2 < Int.fract q then ⌊q⌋ + 1
  else if ⌊q⌋ % 2 = 0 then ⌊q⌋ else ⌊q⌋ + 1

/-- Python `round(x, 2)`: round to two decimal places. -/
def pyRound2 (q : ℚ) : ℚ := (roundHalfEven (q * 100) : ℚ) / 100

/-- `custom_round` from src/3DPrintPrice.py lines 318-325 and
src/app.py lines 262-269:
```
remainder = value % 100
base = value - remainder
if remainder < 25: return int(base + 50)
else:              return int(base + 100)
``` -/
def custom_round (value : ℚ) : ℤ :=
  let remainder := pyMod value 100
  let base := value - remainder
  if remainder < 25 then pyInt (base + 50) else pyInt (base + 100)

/-- `PrinterProfile` record: name, power (watts), amortization per hour. -/
structure PrinterProfile where
  name : String
  power : ℚ
  amortization : ℚ
  deriving DecidableEq

/-- `PlasticProfile` record: name and cost per kilogram. -/
structure PlasticProfile where
  name : String
  plastic_cost : ℚ
  deriving DecidableEq

/-- The JSON object serialized for one printer profile
(`PrinterProfile.to_dict` / `from_dict`); each key may be absent. -/
structure PrinterDict where
  name : Option String
  power : Option ℚ
  amortization : Option ℚ
  deriving DecidableEq

/-- The JSON object serialized for one plastic profile. -/
structure PlasticDict where
  name : Option String
  plastic_cost : Option ℚ
  deriving DecidableEq

/-- `PrinterProfile.to_dict`: writes all three keys. -/
def PrinterProfile.to_dict (p : PrinterProfile) : PrinterDict :=
  { name := some p.name, power := some p.power, amortization := some p.amortization }

/-- `PrinterProfile.from_dict`: `d.get("name", "")`, `float(d.get("power", 0.0))`,
`float(d.get("amortization", 0.0))`. -/
def PrinterProfile.from_dict (d : PrinterDict) : PrinterProfile :=
  { name := d.name.getD "", power := d.power.getD 0, amortization := d.amortization.getD 0 }

/-- `PlasticProfile.to_dict`. -/
def PlasticProfile.to_dict (p : PlasticProfile) : PlasticDict :=
  { name := some p.name, plastic_cost := some p.plastic_cost }

/-- `PlasticProfile.from_dict`: `d.get("name", "")`, `float(d.get("plastic_cost", 0.0))`. -/
def PlasticProfile.from_dict (d : PlasticDict) : PlasticProfile :=
  { name := d.name.getD "", plastic_cost := d.plastic_cost.getD 0 }

/-- The persisted JSON document (config.json) of src/3DPrintPrice.py.
Every key may be absent, hence `Option` fields. -/
structure JsonDoc where
  electricity_cost_default : Option ℚ
  margin_default : Option ℚ
  last_selected_printer : Option String
  last_selected_plastic : Option String
  printers : Option (List PrinterDict)
  plastics : Option (List PlasticDict)
  deriving DecidableEq

/-- In-memory `Settings` fields of src/3DPrintPrice.py (the path fields are
file-system plumbing and carry no data the claims mention). -/
structure Settings where
  electricity_cost_default : ℚ
  margin_default : ℚ
  last_selected_printer : String
  last_selected_plastic : String
  deriving DecidableEq

/-- `Settings.load` (src/3DPrintPrice.py lines 106-122): each field is read
with `data.get(key, default)`; an absent key yields the default. -/
def Settings.load (data : JsonDoc) : Settings :=
  { electricity_cost_default := data.electricity_cost_default.getD 0
    margin_default := data.margin_default.getD 0
    last_selected_printer := data.last_selected_printer.getD ""
    last_selected_plastic := data.last_selected_plastic.getD "" }

/-- `Settings.save` (src/3DPrintPrice.py lines 124-140): writes every key,
serializing the profile lists with `to_dict`. -/
def Settings.save (s : Settings) (printers : List PrinterProfile)
    (plastics : List PlasticProfile) : JsonDoc :=
  { electricity_cost_default := some s.electricity_cost_default
    margin_default := some s.margin_default
    last_selected_printer := some s.last_selected_printer
    last_selected_plastic := some s.last_selected_plastic
    printers := some (printers.map PrinterProfile.to_dict)
    plastics := some (plastics.map PlasticProfile.to_dict) }

/-- `Settings.load_profiles` (src/3DPrintPrice.py lines 142-154):
`data.get("printers", [])` / `data.get("plastics", [])` decoded with
`from_dict`. -/
def Settings.load_profiles (data : JsonDoc) :
    List PrinterProfile × List PlasticProfile :=
  ((data.printers.getD []).map PrinterProfile.from_dict,
   (data.plastics.getD []).map PlasticProfile.from_dict)

/-- The per-calculation result assembled by `App._calculate`. -/
structure PriceBreakdown where
  amort : ℚ
  elec : ℚ
  plastic_cost : ℚ
  base_price : ℚ
  price_with_margin : ℚ
  final_price : ℚ
  deriving DecidableEq

namespace App

/-- The arithmetic core of `App._calculate` (src/3DPrintPrice.py lines
630-659, src/app.py lines 544-573), after the numeric inputs have been
parsed:
```
power_kw = printer.power / 1000.0
margin = margin_default / 100.0
amort = printer.amortization * time
elec = power_kw * time * elec_cost
plastic_cost = (weight / 1000.0) * plastic.plastic_cost
base_price = amort + elec + plastic_cost + extra
price_with_margin = base_price * (1 + margin)
final_price = custom_round(price_with_margin) if round_var else round(price_with_margin, 2)
``` -/
def calculate (printer : PrinterProfile) (plastic : PlasticProfile)
    (weight time extra elec_cost margin_default : ℚ) (round_var : Bool) :
    PriceBreakdown :=
  let power_kw := printer.power / 1000
  let margin := margin_default / 100
  let amort := printer.amortization * time
  let elec := power_kw * time * elec_cost
  let plastic_cost := (weight / 1000) * plastic.plastic_cost
  let base_price := amort + elec + plastic_cost + extra
  let price_with_margin := base_price * (1 + margin)
  let final_price :=
    if round_var then ((custom_round price_with_margin : ℤ) : ℚ)
    else pyRound2 price_with_margin
  { amort := amort, elec := elec, plastic_cost := plastic_cost,
    base_price := base_price, price_with_margin := price_with_margin,
    final_price := final_price }

/-- `App._create_printer` duplicate check and append (src/app.py lines
440-451): `any(p.name == new.name for p in printers)` rejects, else the
profile is appended and the store saved. An `error` result models the
early `return` where nothing is mutated or persisted. -/
def create_printer (printers : List PrinterProfile)
    (result_profile : PrinterProfile) : Except String (List PrinterProfile) :=
  if printers.any (fun p => p.name == result_profile.name) then
    Except.error "Profile with this name already exists."
  else
    Except.ok (printers ++ [result_profile])

/-- `App._create_plastic` (src/3DPrintPrice.py lines 581-592): same logic
on the plastic collection. -/
def create_plastic (plastics : List PlasticProfile)
    (result_profile : PlasticProfile) : Except String (List PlasticProfile) :=
  if plastics.any (fun p => p.name == result_profile.name) then
    Except.error "Profile with this name already exists."
  else
    Except.ok (plastics ++ [result_profile])

/-- `App._edit_printer` duplicate check and in-place replacement
(src/app.py lines 453-470):
`any(p.name == new.name and p != profile for p in printers)` where
`profile = printers[idx]` and `p != profile` is Python reference
inequality; the list holds distinct freshly-constructed objects, so it is
modelled as position inequality over the enumerated list. -/
def edit_printer (printers : List PrinterProfile) (idx : ℕ)
    (result_profile : PrinterProfile) : Except String (List PrinterProfile) :=
  if printers.enum.any (fun jp => jp.2.name == result_profile.name && jp.1 != idx) then
    Except.error "Profile with this name already exists."
  else
    Except.ok (printers.set idx result_profile)

/-- `App._refresh_printer_combo` selection logic (src/3DPrintPrice.py lines
479-497) combined with the `_on_printer_selected` it triggers: returns the
resulting `current_printer`.
```
names = [p.name for p in printers]
if names:
    selected_idx = 0
    if last_selected_printer:            # falsy for ""
        try: selected_idx = names.index(last_selected_printer)
        except ValueError: selected_idx = 0
    current = printers[selected_idx]
else:
    current = None
``` -/
def refresh_printer_combo (printers : List PrinterProfile)
    (last_selected_printer : String) : Option PrinterProfile :=
  let names := printers.map PrinterProfile.name
  if names.isEmpty then none
  else
    let selected_idx :=
      if last_selected_printer = "" then 0
      else if last_selected_printer ∈ names then names.indexOf last_selected_printer
      else 0
    printers.get? selected_idx

end App

/-- In-memory state of the `App` of src/3DPrintPrice.py that the delete
pipeline touches. -/
structure AppStore where
  printers : List PrinterProfile
  plastics : List PlasticProfile
  current_printer : Option PrinterProfile
  current_plastic : Option PlasticProfile
  settings : Settings
  deriving DecidableEq

namespace App

/-- `App._update_last_selected` (src/3DPrintPrice.py lines 471-477): if a
current printer/plastic is set, overwrite the corresponding
`last_selected_*` field with its name. -/
def update_last_selected (s : AppStore) : AppStore :=
  let s1 :=
    match s.current_printer with
    | some p => { s with settings := { s.settings with last_selected_printer := p.name } }
    | none => s
  match s1.current_plastic with
  | some p => { s1 with settings := { s1.settings with last_selected_plastic := p.name } }
  | none => s1

/-- `App._save_profiles` (src/3DPrintPrice.py lines 466-470): first
`_update_last_selected`, then `Settings.save` with the profile lists.
Returns the updated state together with the JSON document persisted. -/
def save_profiles (s : AppStore) : AppStore × JsonDoc :=
  let s1 := update_last_selected s
  (s1, Settings.save s1.settings s1.printers s1.plastics)

/-- `App._delete_printer` after the user confirms (src/3DPrintPrice.py
lines 539-551): delete `printers[idx]`, clear `last_selected_printer`
when the current printer carries that name, then `_save_profiles`.
The trailing `_refresh_printer_combo` performs no write (its
`_on_printer_selected` is invoked with `event=None`), so the document
returned here is the state persisted by the deletion. -/
def delete_printer (s : AppStore) (idx : ℕ) : AppStore × JsonDoc :=
  let s1 := { s with printers := s.printers.eraseIdx idx }
  let s2 :=
    match s1.current_printer with
    | some p =>
        if p.name = s1.settings.last_selected_printer then
          { s1 with settings := { s1.settings with last_selected_printer := "" } }
        else s1
    | none => s1
  save_profiles s2

end App

/-! ### Helper lemmas about `pyMod`, `pyInt` and `custom_round` -/

theorem pyMod_hundred_eq_fract (a : ℚ) : pyMod a 100 = 100 * Int.fract (a / 100) := by
  unfold pyMod
  rw [Int.fract]
  ring

theorem pyMod_hundred_nonneg (a : ℚ) : 0 ≤ pyMod a 100 := by
  rw [pyMod_hundred_eq_fract]
  exact mul_nonneg (by norm_num) (Int.fract_nonneg _)

theorem pyMod_hundred_lt (a : ℚ) : pyMod a 100 < 100 := by
  rw [pyMod_hundred_eq_fract]
  calc (100 : ℚ) * Int.fract (a / 100) < 100 * 1 := by
        exact mul_lt_mul_of_pos_left (Int.fract_lt_one _) (by norm_num)
    _ = 100 := by norm_num

theorem pyInt_intCast (n : ℤ) : pyInt (n : ℚ) = n := by
  unfold pyInt
  split <;> simp

theorem sub_pyMod_hundred (v : ℚ) : v - pyMod v 100 = ((100 * ⌊v / 100⌋ : ℤ) : ℚ) := by
  unfold pyMod
  push_cast
  ring

theorem custom_round_eq (v : ℚ) :
    custom_round v = 100 * ⌊v / 100⌋ + (if pyMod v 100 < 25 then 50 else 100) := by
  have h : custom_round v =
      if pyMod v 100 < 25 then pyInt (v - pyMod v 100 + 50)
      else pyInt (v - pyMod v 100 + 100) := rfl
  rw [h]
  split
  · rw [sub_pyMod_hundred]
    have : ((100 * ⌊v / 100⌋ : ℤ) : ℚ) + 50 = ((100 * ⌊v / 100⌋ + 50 : ℤ) : ℚ) := by push_cast; ring
    rw [this, pyInt_intCast]
  · rw [sub_pyMod_hundred]
    have : ((100 * ⌊v / 100⌋ : ℤ) : ℚ) + 100 = ((100 * ⌊v / 100⌋ + 100 : ℤ) : ℚ) := by push_cast; ring
    rw [this, pyInt_intCast]

theorem custom_round_cast (v : ℚ) :
    (custom_round v : ℚ) = (v - pyMod v 100) + (if pyMod v 100 < 25 then 50 else 100) := by
  rw [custom_round_eq, sub_pyMod_hundred]
  split <;> push_cast <;> ring

theorem custom_round_sub_self (v : ℚ) :
    (custom_round v : ℚ) - v = (if pyMod v 100 < 25 then 50 else 100) - pyMod v 100 := by
  rw [custom_round_cast]
  ring

theorem custom_round_gt (v : ℚ) : v < (custom_round v : ℚ) := by
  have h := custom_round_sub_self v
  have h1 := pyMod_hundred_nonneg v
  have h2 := pyMod_hundred_lt v
  by_cases hc : pyMod v 100 < 25
  · rw [if_pos hc] at h
    linarith
  · rw [if_neg hc] at h
    linarith

/-- C1: the price calculation computes the amortization, electricity and
plastic cost terms, their sum with the extra cost, the margin multiplier
and the optionally rounded final cost exactly as the spec formulas state,
and on the spec example (printer power 200 W, amortization 1.0/h, plastic
20/kg, 50 g, 2 h, extra 0, rate 0.15, margin 10 %, no custom rounding) it
yields 2.00, 0.06, 1.00, base 3.06 and final cost 3.37. -/
theorem calculate_spec :
    (∀ (printer : PrinterProfile) (plastic : PlasticProfile)
        (weight time extra rate margin : ℚ) (rnd : Bool),
      (App.calculate printer plastic weight time extra rate margin rnd).amort =
          printer.amortization * time ∧
      (App.calculate printer plastic weight time extra rate margin rnd).elec =
          printer.power / 1000 * time * rate ∧
      (App.calculate printer plastic weight time extra rate margin rnd).plastic_cost =
          weight / 1000 * plastic.plastic_cost ∧
      (App.calculate printer plastic weight time extra rate margin rnd).base_price =
          (App.calculate printer plastic weight time extra rate margin rnd).amort +
          (App.calculate printer plastic weight time extra rate margin rnd).elec +
          (App.calculate printer plastic weight time extra rate margin rnd).plastic_cost +
          extra ∧
      (App.calculate printer plastic weight time extra rate margin rnd).price_with_margin =
          (App.calculate printer plastic weight time extra rate margin rnd).base_price *
            (1 + margin / 100) ∧
      (App.calculate printer plastic weight time extra rate margin rnd).final_price =
          (if rnd then
            ((custom_round
              (App.calculate printer plastic weight time extra rate margin rnd).price_with_margin : ℤ) : ℚ)
          else pyRound2
            (App.calculate printer plastic weight time extra rate margin rnd).price_with_margin)) ∧
    App.calculate ⟨"P", 200, 1⟩ ⟨"PLA", 20⟩ 50 2 0 (15 / 100) 10 false =
      ⟨2, 6 / 100, 1, 306 / 100, 3366 / 1000, 337 / 100⟩ := by
  constructor
  · intro printer plastic weight time extra rate margin rnd
    exact ⟨rfl, rfl, rfl, rfl, rfl, rfl⟩
  · norm_num [App.calculate, pyRound2, roundHalfEven, Int.fract]

/-- C2: for every value, the Python remainder `value % 100` lies in
`[0, 100)` (also for negative inputs), `custom_round` returns
`base + 50` when the remainder is below 25 and `base + 100` otherwise
(where `base = value - remainder`), it never returns `base` itself, and
an exact multiple of 100 rounds up to `base + 50`. -/
theorem custom_round_mod_spec (v : ℚ) (n : ℤ) :
    0 ≤ pyMod v 100 ∧ pyMod v 100 < 100 ∧
    (custom_round v : ℚ) =
      (v - pyMod v 100) + (if pyMod v 100 < 25 then 50 else 100) ∧
    (custom_round v : ℚ) ≠ v - pyMod v 100 ∧
    custom_round ((100 * n : ℤ) : ℚ) = 100 * n + 50 := by
  refine ⟨pyMod_hundred_nonneg v, pyMod_hundred_lt v, custom_round_cast v, ?_, ?_⟩
  · intro hcontra
    rw [custom_round_cast] at hcontra
    by_cases hc : pyMod v 100 < 25
    · rw [if_pos hc] at hcontra
      linarith [hcontra]
    · rw [if_neg hc] at hcontra
      linarith [hcontra]
  · have hdiv : ((100 * n : ℤ) : ℚ) / 100 = (n : ℚ) := by
      push_cast
      field_simp
    have hfloor : ⌊((100 * n : ℤ) : ℚ) / 100⌋ = n := by
      rw [hdiv]
      exact Int.floor_intCast n
    have hmod : pyMod ((100 * n : ℤ) : ℚ) 100 = 0 := by
      unfold pyMod
      rw [hfloor]
      push_cast
      ring
    rw [custom_round_eq, hfloor, hmod]
    norm_num

/-- C3: for every value, `custom_round value` is a multiple of 50,
strictly greater than `value - 50`, and never equal to the input; and
concretely `custom_round 1000 = 1050`, `custom_round 1024 = 1050`,
`custom_round 1025 = 1100`, `custom_round 1099 = 1100`. -/
theorem custom_round_bucket_spec :
    (∀ v : ℚ, (50 : ℤ) ∣ custom_round v ∧
      v - 50 < (custom_round v : ℚ) ∧ (custom_round v : ℚ) ≠ v) ∧
    custom_round 1000 = 1050 ∧ custom_round 1024 = 1050 ∧
    custom_round 1025 = 1100 ∧ custom_round 1099 = 1100 := by
  refine ⟨fun v => ⟨?_, ?_, ?_⟩, ?_, ?_, ?_, ?_⟩
  · rw [custom_round_eq]
    by_cases hc : pyMod v 100 < 25
    · rw [if_pos hc]
      exact ⟨2 * ⌊v / 100⌋ + 1, by ring⟩
    · rw [if_neg hc]
      exact ⟨2 * ⌊v / 100⌋ + 2, by ring⟩
  · have := custom_round_gt v
    linarith
  · exact (custom_round_gt v).ne'
  · norm_num [custom_round, pyMod, pyInt]
  · norm_num [custom_round, pyMod, pyInt]
  · norm_num [custom_round, pyMod, pyInt]
  · norm_num [custom_round, pyMod, pyInt]

/-- C10: for every value, `custom_round value` strictly exceeds the
value, and the increase lies in the half-open interval `(0, 75]`: the
rounded price never rounds down to or below the raw price. -/
theorem custom_round_increase_bounds (v : ℚ) :
    v < (custom_round v : ℚ) ∧
    0 < (custom_round v : ℚ) - v ∧ (custom_round v : ℚ) - v ≤ 75 := by
  have hgt := custom_round_gt v
  refine ⟨hgt, by linarith, ?_⟩
  have h := custom_round_sub_self v
  have h1 := pyMod_hundred_nonneg v
  by_cases hc : pyMod v 100 < 25
  · rw [if_pos hc] at h
    linarith
  · rw [if_neg hc] at h
    push_neg at hc
    linarith

/-- C9: serializing Settings together with the printer and plastic
profile lists to the JSON document and reloading yields field-for-field
equal records. -/
theorem settings_roundtrip (s : Settings) (printers : List PrinterProfile)
    (plastics : List PlasticProfile) :
    Settings.load (Settings.save s printers plastics) = s ∧
    Settings.load_profiles (Settings.save s printers plastics) =
      (printers, plastics) := by
  constructor
  · rfl
  · unfold Settings.load_profiles Settings.save
    simp only [Option.getD_some, List.map_map, Prod.mk.injEq]
    constructor
    · have h : PrinterProfile.from_dict ∘ PrinterProfile.to_dict = id :=
        funext fun p => rfl
      rw [h, List.map_id]
    · have h : PlasticProfile.from_dict ∘ PlasticProfile.to_dict = id :=
        funext fun p => rfl
      rw [h, List.map_id]

/-- C7: for every JSON document, each absent optional key is replaced by
its default on load (0 for the numeric fields, the empty string for the
last-selected names, the empty list for each profile collection); loading
is a total function and never fails because keys are absent. -/
theorem load_defaults_on_missing_keys (doc : JsonDoc) :
    (doc.electricity_cost_default = none →
      (Settings.load doc).electricity_cost_default = 0) ∧
    (doc.margin_default = none → (Settings.load doc).margin_default = 0) ∧
    (doc.last_selected_printer = none →
      (Settings.load doc).last_selected_printer = "") ∧
    (doc.last_selected_plastic = none →
      (Settings.load doc).last_selected_plastic = "") ∧
    (doc.printers = none → (Settings.load_profiles doc).1 = []) ∧
    (doc.plastics = none → (Settings.load_profiles doc).2 = []) := by
  refine ⟨fun h => ?_, fun h => ?_, fun h => ?_, fun h => ?_, fun h => ?_, fun h => ?_⟩ <;>
    simp [Settings.load, Settings.load_profiles, h]

theorem load_defaults_on_missing_keys_witness :
    (Settings.load ⟨none, none, none, none, none, none⟩).electricity_cost_default = 0 ∧
    (Settings.load ⟨none, none, none, none, none, none⟩).margin_default = 0 ∧
    (Settings.load ⟨none, none, none, none, none, none⟩).last_selected_printer = "" ∧
    (Settings.load ⟨none, none, none, none, none, none⟩).last_selected_plastic = "" ∧
    (Settings.load_profiles ⟨none, none, none, none, none, none⟩).1 = [] ∧
    (Settings.load_profiles ⟨none, none, none, none, none, none⟩).2 = [] :=
  ⟨(load_defaults_on_missing_keys ⟨none, none, none, none, none, none⟩).1 rfl,
   (load_defaults_on_missing_keys ⟨none, none, none, none, none, none⟩).2.1 rfl,
   (load_defaults_on_missing_keys ⟨none, none, none, none, none, none⟩).2.2.1 rfl,
   (load_defaults_on_missing_keys ⟨none, none, none, none, none, none⟩).2.2.2.1 rfl,
   (load_defaults_on_missing_keys ⟨none, none, none, none, none, none⟩).2.2.2.2.1 rfl,
   (load_defaults_on_missing_keys ⟨none, none, none, none, none, none⟩).2.2.2.2.2 rfl⟩

/-- C5: creating a printer or plastic profile whose name exactly equals
(case-sensitively) the name of an existing profile in the same collection
is rejected with the duplicate-name error; the error result models the
early return on which nothing is appended and nothing persisted. -/
theorem create_duplicate_rejected (printers : List PrinterProfile)
    (plastics : List PlasticProfile) (np : PrinterProfile) (pl : PlasticProfile)
    (h1 : ∃ p ∈ printers, p.name = np.name)
    (h2 : ∃ q ∈ plastics, q.name = pl.name) :
    App.create_printer printers np =
      Except.error "Profile with this name already exists." ∧
    App.create_plastic plastics pl =
      Except.error "Profile with this name already exists." := by
  constructor
  · unfold App.create_printer
    rw [if_pos]
    rw [List.any_eq_true]
    obtain ⟨p, hp, hn⟩ := h1
    exact ⟨p, hp, by simp [hn]⟩
  · unfold App.create_plastic
    rw [if_pos]
    rw [List.any_eq_true]
    obtain ⟨q, hq, hn⟩ := h2
    exact ⟨q, hq, by simp [hn]⟩

theorem create_duplicate_rejected_witness :
    App.create_printer [⟨"A", 1, 1⟩] ⟨"A", 2, 2⟩ =
      Except.error "Profile with this name already exists." ∧
    App.create_plastic [⟨"B", 5⟩] ⟨"B", 7⟩ =
      Except.error "Profile with this name already exists." :=
  create_duplicate_rejected _ _ _ _
    ⟨⟨"A", 1, 1⟩, List.mem_singleton.mpr rfl, rfl⟩
    ⟨⟨"B", 5⟩, List.mem_singleton.mpr rfl, rfl⟩

theorem refresh_printer_combo_def (printers : List PrinterProfile) (last : String) :
    App.refresh_printer_combo printers last =
      if (printers.map PrinterProfile.name).isEmpty then none
      else printers.get?
        (if last = "" then 0
         else if last ∈ printers.map PrinterProfile.name then
           (printers.map PrinterProfile.name).indexOf last
         else 0) := rfl

/-- C8: selection by name yields the profile carrying the requested name
when one is present; when the requested name is absent (including the
falsy empty string) and the collection is non-empty it falls back to
index 0, and on the empty collection there is no selection; the function
is total, so selection never errors. Profile names are non-empty by the
store invariant. -/
theorem refresh_combo_selection_spec (printers : List PrinterProfile) (last : String)
    (hnm : ∀ p ∈ printers, p.name ≠ "") :
    (last ∈ printers.map PrinterProfile.name →
      ∃ p, App.refresh_printer_combo printers last = some p ∧ p.name = last) ∧
    (last ∉ printers.map PrinterProfile.name →
      App.refresh_printer_combo printers last = printers.get? 0) ∧
    (printers = [] → App.refresh_printer_combo printers last = none) := by
  refine ⟨?_, ?_, ?_⟩
  · intro hmem
    have hne : ¬ (printers.map PrinterProfile.name).isEmpty = true := by
      rw [List.isEmpty_iff]
      exact List.ne_nil_of_mem hmem
    have hlast : ¬ last = "" := by
      obtain ⟨p, hp, hpn⟩ := List.mem_map.mp hmem
      rw [← hpn]
      exact hnm p hp
    rw [refresh_printer_combo_def, if_neg hne, if_neg hlast, if_pos hmem]
    have hlt : (printers.map PrinterProfile.name).indexOf last <
        (printers.map PrinterProfile.name).length :=
      List.indexOf_lt_length.mpr hmem
    have hlt2 : (printers.map PrinterProfile.name).indexOf last < printers.length := by
      simpa using hlt
    refine ⟨printers.get ⟨(printers.map PrinterProfile.name).indexOf last, hlt2⟩, ?_, ?_⟩
    · simp [List.get?_eq_getElem?, List.getElem?_eq_getElem, hlt2, List.get_eq_getElem]
    · have hval := List.getElem_indexOf hlt
      rw [List.getElem_map] at hval
      simpa [List.get_eq_getElem] using hval
  · intro hnotmem
    rw [refresh_printer_combo_def]
    by_cases hE : (printers.map PrinterProfile.name).isEmpty = true
    · rw [if_pos hE]
      have hnil : printers = [] := by
        rw [List.isEmpty_iff, List.map_eq_nil_iff] at hE
        exact hE
      rw [hnil]
      rfl
    · rw [if_neg hE]
      by_cases hl : last = ""
      · rw [if_pos hl]
      · rw [if_neg hl, if_neg hnotmem]
  · intro h
    subst h
    rfl

theorem refresh_combo_selection_spec_witness :
    ∃ p, App.refresh_printer_combo [⟨"A", 1, 1⟩, ⟨"B", 2, 2⟩] "B" = some p ∧
      p.name = "B" :=
  (refresh_combo_selection_spec [⟨"A", 1, 1⟩, ⟨"B", 2, 2⟩] "B" (by decide)).1
    (by decide)

theorem edit_printer_def (printers : List PrinterProfile) (idx : ℕ)
    (np : PrinterProfile) :
    App.edit_printer printers idx np =
      if printers.enum.any (fun jp => jp.2.name == np.name && jp.1 != idx) then
        Except.error "Profile with this name already exists."
      else Except.ok (printers.set idx np) := rfl

/-- C6: under the store invariant that profile names are unique, editing
the profile at the selected index fails with the duplicate-name error
exactly when the new name differs from the name of the edited profile and
equals the name of an entry at another position; otherwise the entry at
that index is replaced in place (in particular, keeping the same name is
always allowed). -/
theorem edit_printer_duplicate_iff (printers : List PrinterProfile) (idx : ℕ)
    (np : PrinterProfile) (hidx : idx < printers.length)
    (hnodup : (printers.map PrinterProfile.name).Nodup) :
    (App.edit_printer printers idx np =
        Except.error "Profile with this name already exists." ↔
      np.name ≠ (printers.get ⟨idx, hidx⟩).name ∧
        ∃ j, ∃ hj : j < printers.length,
          j ≠ idx ∧ (printers.get ⟨j, hj⟩).name = np.name) ∧
    (App.edit_printer printers idx np ≠
        Except.error "Profile with this name already exists." →
      App.edit_printer printers idx np = Except.ok (printers.set idx np)) := by
  have hcond : (printers.enum.any (fun jp => jp.2.name == np.name && jp.1 != idx)) = true ↔
      np.name ≠ (printers.get ⟨idx, hidx⟩).name ∧
        ∃ j, ∃ hj : j < printers.length,
          j ≠ idx ∧ (printers.get ⟨j, hj⟩).name = np.name := by
    rw [List.any_eq_true]
    constructor
    · rintro ⟨⟨j, p⟩, hmem, hx⟩
      simp only [Bool.and_eq_true, beq_iff_eq, bne_iff_ne] at hx
      obtain ⟨hname, hjx⟩ := hx
      have hget : printers[j]? = some p := List.mk_mem_enum_iff_getElem?.mp hmem
      have hjlt : j < printers.length := by
        by_contra hcon
        rw [List.getElem?_eq_none (by omega)] at hget
        exact Option.noConfusion hget
      have hgetElem : printers[j] = p := by
        rw [List.getElem?_eq_getElem hjlt] at hget
        exact Option.some.inj hget
      have hgetEq : printers.get ⟨j, hjlt⟩ = p := by
        simpa [List.get_eq_getElem] using hgetElem
      refine ⟨?_, j, hjlt, hjx, by rw [hgetEq]; exact hname⟩
      intro heq
      have hmapj : j < (printers.map PrinterProfile.name).length := by simpa using hjlt
      have hmapi : idx < (printers.map PrinterProfile.name).length := by simpa using hidx
      have hnames : (printers.map PrinterProfile.name).get ⟨j, hmapj⟩ =
          (printers.map PrinterProfile.name).get ⟨idx, hmapi⟩ := by
        simp only [List.get_eq_getElem, List.getElem_map]
        rw [hgetElem, hname, heq, List.get_eq_getElem]
      have := (List.Nodup.get_inj_iff hnodup).mp hnames
      exact hjx (by simpa using congrArg Fin.val this)
    · rintro ⟨hne, j, hjlt, hjne, hjname⟩
      refine ⟨(j, printers.get ⟨j, hjlt⟩), ?_, ?_⟩
      · exact List.mk_mem_enum_iff_getElem?.mpr
          (by rw [List.getElem?_eq_getElem hjlt, List.get_eq_getElem])
      · simp only [Bool.and_eq_true, beq_iff_eq, bne_iff_ne]
        exact ⟨hjname, hjne⟩
  constructor
  · by_cases hb : (printers.enum.any (fun jp => jp.2.name == np.name && jp.1 != idx)) = true
    · rw [edit_printer_def, if_pos hb]
      exact iff_of_true rfl (hcond.mp hb)
    · rw [edit_printer_def, if_neg hb]
      exact iff_of_false (by simp) (fun hr => hb (hcond.mpr hr))
  · intro hne
    rw [edit_printer_def]
    rw [edit_printer_def] at hne
    by_cases hb : (printers.enum.any (fun jp => jp.2.name == np.name && jp.1 != idx)) = true
    · rw [if_pos hb] at hne
      exact absurd rfl hne
    · rw [if_neg hb]

theorem edit_printer_duplicate_iff_witness :
    (App.edit_printer [⟨"A", 1, 1⟩, ⟨"B", 2, 2⟩] 0 ⟨"B", 3, 3⟩ =
        Except.error "Profile with this name already exists." ↔
      PrinterProfile.name ⟨"B", 3, 3⟩ ≠
          (([⟨"A", 1, 1⟩, ⟨"B", 2, 2⟩] : List PrinterProfile).get ⟨0, by decide⟩).name ∧
        ∃ j, ∃ hj : j < ([⟨"A", 1, 1⟩, ⟨"B", 2, 2⟩] : List PrinterProfile).length,
          j ≠ 0 ∧ (([⟨"A", 1, 1⟩, ⟨"B", 2, 2⟩] : List PrinterProfile).get ⟨j, hj⟩).name =
            PrinterProfile.name ⟨"B", 3, 3⟩) ∧
    (App.edit_printer [⟨"A", 1, 1⟩, ⟨"B", 2, 2⟩] 0 ⟨"B", 3, 3⟩ ≠
        Except.error "Profile with this name already exists." →
      App.edit_printer [⟨"A", 1, 1⟩, ⟨"B", 2, 2⟩] 0 ⟨"B", 3, 3⟩ =
        Except.ok (([⟨"A", 1, 1⟩, ⟨"B", 2, 2⟩] : List PrinterProfile).set 0 ⟨"B", 3, 3⟩)) :=
  edit_printer_duplicate_iff [⟨"A", 1, 1⟩, ⟨"B", 2, 2⟩] 0 ⟨"B", 3, 3⟩
    (by decide) (by decide)

/-- C4: evaluating the delete pipeline at a store whose single printer
"A" is the one referenced by `last_selected_printer`, with the current
printer still pointing at it (the state the GUI maintains): the profile
is removed from the persisted list, but `_save_profiles` runs
`_update_last_selected` after the clearing step, which copies the stale
`current_printer` name back, so the persisted document still references
the deleted profile "A" instead of the empty string the claim (and the
code comment at the clearing step) requires. -/
theorem delete_printer_persists_dangling :
    (App.delete_printer
        ⟨[⟨"A", 10, 1⟩], [], some ⟨"A", 10, 1⟩, none, ⟨0, 0, "A", ""⟩⟩ 0).2.printers =
      some [] ∧
    (App.delete_printer
        ⟨[⟨"A", 10, 1⟩], [], some ⟨"A", 10, 1⟩, none, ⟨0, 0, "A", ""⟩⟩ 0).2.last_selected_printer =
      some "A" := by
  constructor <;> rfl
